import Mathlib

/-
  Verification of the DCF calculation engine of the EVChargeModeler repository.

  The repository contains two implementations of the engine:
    * a server-side `calculateDCF` in src/server/routes.ts, and
    * a client-side `calculateDCF` together with `validateDCFInputs`
      in the client library file (src/unnamed/part_001).

  JavaScript numbers are modelled as rationals (ℚ); `Math.round` is
  modelled exactly as `⌊x + 1/2⌋` (JS rounds half toward +∞), and loops
  are modelled by structural recursion with the loop bound as fuel.
-/

attribute [local semireducible] Rat.add Rat.mul Rat.inv Rat.sub Rat.ofScientific

namespace EVCharge

/-- JS `Math.round`: rounds to the nearest integer, halves toward +∞,
i.e. `⌊x + 1/2⌋`, kept as a rational since JS numbers stay numbers. -/
def jsRound (x : ℚ) : ℚ := ((⌊x + 1/2⌋ : ℤ) : ℚ)

/-- Discounted sum starting at period `i`:
`pvAux r i [c₀, c₁, …] = c₀/(1+r)^i + c₁/(1+r)^(i+1) + …`.
This is the loop `npv += cf[i] / Math.pow(1 + rate, i)` that appears in
both engines (routes.ts lines 54-57, part_001 lines 655-658 and 662-667). -/
def pvAux (r : ℚ) : ℕ → List ℚ → ℚ
  | _, [] => 0
  | i, c :: cs => c / (1 + r) ^ i + pvAux r (i + 1) cs

/-- `presentValue cf r = Σ_t cf[t] / (1+r)^t`, the discounting loop used by
both engines for NPV and inside their IRR searches. -/
def presentValue (cf : List ℚ) (r : ℚ) : ℚ := pvAux r 0 cf

/-- The parameter record consumed by both `calculateDCF` implementations
(`DCFInputs` in part_001, the inline parameter type in routes.ts).
`projectLife` is the loop bound and is therefore a natural number. -/
structure DCFInputs where
  capex : ℚ
  opex : ℚ
  chargerCount : ℚ
  peakUtilization : ℚ
  chargingRate : ℚ
  lcfsCredits : ℚ
  stateRebate : ℚ
  discountRate : ℚ
  projectLife : ℕ
deriving Repr, DecidableEq

/-- The result record produced by both engines (`DCFResults` in part_001). -/
structure DCFResults where
  npv : ℚ
  irr : ℚ
  lcoc : ℚ
  cashFlows : List ℚ
deriving Repr, DecidableEq

/-- Replace only the `chargingRate` field, leaving every other field as is. -/
def setRate (i : DCFInputs) (r : ℚ) : DCFInputs :=
  ⟨i.capex, i.opex, i.chargerCount, i.peakUtilization, r,
   i.lcfsCredits, i.stateRebate, i.discountRate, i.projectLife⟩

namespace Client

/-- part_001 line 619: `const chargerPowerKW = 350`. -/
def chargerPowerKW : ℚ := 350

/-- part_001 line 620: `const hoursPerDay = 16`. -/
def hoursPerDay : ℚ := 16

/-- part_001 line 621: `const daysPerYear = 365`. -/
def daysPerYear : ℚ := 365

/-- part_001 line 622: `const utilizationRampUp = 0.7`. -/
def utilizationRampUp : ℚ := 7 / 10

/-- part_001 line 629: `const co2ReductionPerKWh = 0.0004`. -/
def co2ReductionPerKWh : ℚ := 1 / 2500

/-- part_001 line 625:
`annualKWhPerCharger = chargerPowerKW * hoursPerDay * daysPerYear * (peakUtilization / 100)`.
Note the source divides `peakUtilization` by 100 even though its own
interface comment (line 590) documents the field "as decimal". -/
def annualKWhPerCharger (i : DCFInputs) : ℚ :=
  chargerPowerKW * hoursPerDay * daysPerYear * (i.peakUtilization / 100)

/-- part_001 line 626: `totalAnnualKWh = annualKWhPerCharger * chargerCount`. -/
def totalAnnualKWh (i : DCFInputs) : ℚ :=
  annualKWhPerCharger i * i.chargerCount

/-- part_001 line 630:
`annualLCFSRevenue = totalAnnualKWh * co2ReductionPerKWh * lcfsCredits`. -/
def annualLCFSRevenue (i : DCFInputs) : ℚ :=
  totalAnnualKWh i * co2ReductionPerKWh * i.lcfsCredits

/-- part_001 line 640: the ramp factor of a given year (year = 1, 2, …):
`Math.min(1, utilizationRampUp + ((1 - utilizationRampUp) * (year - 1) / 2))`. -/
def utilizationFactor (year : ℕ) : ℚ :=
  min 1 (utilizationRampUp + (1 - utilizationRampUp) * ((year : ℚ) - 1) / 2)

/-- part_001 lines 640-651: the net operating cash flow of one year:
revenue `yearlyKWh * chargingRate`, plus ramped LCFS revenue, minus
`opex + electricityCost` where `electricityCost = yearlyKWh * 0.12`. -/
def yearFlow (i : DCFInputs) (year : ℕ) : ℚ :=
  totalAnnualKWh i * utilizationFactor year * i.chargingRate
    + annualLCFSRevenue i * utilizationFactor year
    - (i.opex + totalAnnualKWh i * utilizationFactor year * (12 / 100))

/-- part_001 lines 632-652: the cash-flow series, year 0 being
`-(capex - stateRebate)` followed by `projectLife` operating years. -/
def cashFlowsOf (i : DCFInputs) : List ℚ :=
  (-(i.capex - i.stateRebate)) ::
    (List.range i.projectLife).map (fun k => yearFlow i (k + 1))

/-- part_001 lines 655-658: the NPV before the final `Math.round`. -/
def npvRaw (i : DCFInputs) : ℚ :=
  presentValue (cashFlowsOf i) i.discountRate

/-- part_001 lines 674-685: the bisection loop for IRR.  Each iteration
sets `irr` to the midpoint, breaks if `|presentValue cf irr| < 1`, else
narrows the bracket by the sign of the present value; the fuel is the
remaining iteration count and the last argument the current `irr`. -/
def bisectAux (cf : List ℚ) : ℕ → ℚ → ℚ → ℚ → ℚ
  | 0, _, _, irr => irr
  | n + 1, lo, hi, _ =>
    if |presentValue cf ((lo + hi) / 2)| < 1 then (lo + hi) / 2
    else if 0 < presentValue cf ((lo + hi) / 2) then
      bisectAux cf n ((lo + hi) / 2) hi ((lo + hi) / 2)
    else
      bisectAux cf n lo ((lo + hi) / 2) ((lo + hi) / 2)

/-- part_001 lines 670-685: 100 bisection iterations over `[-0.99, 10.0]`
starting from `irr = 0`. -/
def bisectIRR (cf : List ℚ) : ℚ :=
  bisectAux cf 100 (-(99 / 100)) 10 0

/-- The same loop with the `|npv| < 1` break removed: the trajectory the
bisection follows when the tolerance test never fires. -/
def bisectNoBreakAux (cf : List ℚ) : ℕ → ℚ → ℚ → ℚ → ℚ
  | 0, _, _, irr => irr
  | n + 1, lo, hi, _ =>
    if 0 < presentValue cf ((lo + hi) / 2) then
      bisectNoBreakAux cf n ((lo + hi) / 2) hi ((lo + hi) / 2)
    else
      bisectNoBreakAux cf n lo ((lo + hi) / 2) ((lo + hi) / 2)

/-- `bisectIRR` with the break removed (same bracket, 100 iterations). -/
def bisectNoBreak (cf : List ℚ) : ℚ :=
  bisectNoBreakAux cf 100 (-(99 / 100)) 10 0

/-- part_001 lines 688-692: `totalPresentValueCosts`:
`|cashFlows[0]|` plus, for each operating year, the flat
`opex + totalAnnualKWh * 0.12` discounted at `(1+d)^(index+1)`. -/
def lcocNum (i : DCFInputs) : ℚ :=
  |(-(i.capex - i.stateRebate))| +
    pvAux i.discountRate 1
      (List.replicate i.projectLife (i.opex + totalAnnualKWh i * (12 / 100)))

/-- part_001 lines 694-698: `totalPresentValuekWh`: the ramped yearly kWh
discounted at `(1+d)^(index+1)`. -/
def lcocDen (i : DCFInputs) : ℚ :=
  pvAux i.discountRate 1
    ((List.range i.projectLife).map (fun k => totalAnnualKWh i * utilizationFactor (k + 1)))

/-- part_001 line 700: `lcoc = totalPresentValueCosts / totalPresentValuekWh`,
performed unconditionally (no zero-denominator guard in the source). -/
def lcocOf (i : DCFInputs) : ℚ := lcocNum i / lcocDen i

/-- part_001 lines 605-708: the client-side `calculateDCF`.  Returns the
rounded NPV, the raw bisection IRR, the raw LCOC, and the rounded flows. -/
def calculateDCF (i : DCFInputs) : DCFResults :=
  ⟨jsRound (npvRaw i), bisectIRR (cashFlowsOf i), lcocOf i,
   (cashFlowsOf i).map jsRound⟩

/-- part_001 lines 711-735: `validateDCFInputs`, which returns a list of
error strings (it does not raise).  JS falsiness of `0` is absorbed by
the adjacent range checks (`!x` for a number present in the record is
`x == 0`, already covered by `≤ 0` resp. `< 4`). -/
def validateDCFInputs (i : DCFInputs) : List String :=
  (if i.capex ≤ 0 then ["CapEx must be greater than 0"] else []) ++
  (if i.opex ≤ 0 then ["OpEx must be greater than 0"] else []) ++
  (if i.chargerCount < 4 ∨ 8 < i.chargerCount then
    ["Charger count must be between 4 and 8"] else []) ++
  (if i.peakUtilization ≤ 0 ∨ 100 < i.peakUtilization then
    ["Peak utilization must be between 0 and 100%"] else []) ++
  (if i.chargingRate ≤ 0 then ["Charging rate must be greater than 0"] else [])

end Client

namespace Server

/-- routes.ts line 40: `annualKWh = chargerCount * peakUtilization * 365 * 1000`. -/
def annualKWhOf (i : DCFInputs) : ℚ :=
  i.chargerCount * i.peakUtilization * 365 * 1000

/-- routes.ts lines 39-51: year 0 is `-(capex * chargerCount - stateRebate)`,
then `projectLife` identical operating years
`annualKWh * chargingRate + annualKWh * 0.0004 * lcfsCredits - opex`. -/
def cashFlowsOf (i : DCFInputs) : List ℚ :=
  (-(i.capex * i.chargerCount - i.stateRebate)) ::
    (List.range i.projectLife).map (fun _ =>
      annualKWhOf i * i.chargingRate + annualKWhOf i * (1 / 2500) * i.lcfsCredits - i.opex)

/-- routes.ts lines 59-70: the scan over candidate rates.  State is the
pair `(irr, npv)`; a candidate whose `|testNpv|` beats `|npv|` replaces
both components — the scan mutates the `npv` variable of the enclosing
function, which is what the NPV claims are about. -/
def scanAux (cf : List ℚ) : List ℚ → ℚ × ℚ → ℚ × ℚ
  | [], s => s
  | r :: rs, s =>
    if |presentValue cf r| < |s.2| then scanAux cf rs (r, presentValue cf r)
    else scanAux cf rs s

/-- routes.ts line 61: the candidate rates `0.01, 0.02, …, 0.50`. -/
def scanRates : List ℚ :=
  (List.range 50).map (fun k => ((k : ℚ) + 1) / 100)

/-- routes.ts lines 53-70: initial state is `(discountRate, presentValue cf d)`;
the scan returns the final `(irr, npv)` pair. -/
def scanIRR (cf : List ℚ) (d : ℚ) : ℚ × ℚ :=
  scanAux cf scanRates (d, presentValue cf d)

/-- routes.ts lines 72-75: the undiscounted LCOC
`(capex * chargerCount + opex * projectLife) / (annualKWh * projectLife)`. -/
def lcocRaw (i : DCFInputs) : ℚ :=
  (i.capex * i.chargerCount + i.opex * (i.projectLife : ℚ)) /
    (annualKWhOf i * (i.projectLife : ℚ))

/-- routes.ts lines 15-83: the server-side `calculateDCF`.  The returned
`npv` is the (rounded) final value of the mutated `npv` variable, `irr`
is rounded to a two-decimal percentage, `lcoc` to three decimals, and
the cash flows are returned unrounded. -/
def calculateDCF (i : DCFInputs) : DCFResults :=
  ⟨jsRound (scanIRR (cashFlowsOf i) i.discountRate).2,
   jsRound ((scanIRR (cashFlowsOf i) i.discountRate).1 * 10000) / 100,
   jsRound (lcocRaw i * 1000) / 1000,
   cashFlowsOf i⟩

end Server

/-- The inputs of the spec's concrete scenario, reading `capex` as the
spec's `capExPerCharger`: chargerCount 4, capExPerCharger 100000,
opExRate 0.1, peakUtilization 0.5, chargingRate 0.4, lcfsCreditValue 150,
projectLifeYears 10, discountRate 0.08, stateRebate 0. -/
def exScenario : DCFInputs :=
  ⟨100000, 1/10, 4, 1/2, 2/5, 150, 0, 2/25, 10⟩

/-- A plain profitable input: capex 100000 per charger, absolute opex
10000, 4 chargers, utilization 0.5, rate 0.40, no credits or rebate,
discount rate 0.08, 10 years. -/
def exA : DCFInputs :=
  ⟨100000, 10000, 4, 1/2, 2/5, 0, 0, 2/25, 10⟩

/-- A client-engine input with utilization given as the percentage the
validator expects (50), so the engine sees an effective 0.5 after its
internal division by 100. -/
def exC7 : DCFInputs :=
  ⟨1000000, 10000, 4, 50, 2/5, 0, 0, 2/25, 10⟩

/-- An input violating the documented domain: 99 chargers and a
peak utilization of 500. -/
def exBad : DCFInputs :=
  ⟨1000, 500, 99, 500, 2/5, 0, 0, 1/10, 10⟩

/-- A zero-utilization input: the client LCOC denominator vanishes. -/
def exZeroU : DCFInputs :=
  ⟨1000000, 10000, 4, 0, 2/5, 0, 0, 2/25, 10⟩

/-- A second out-of-domain input: negative capex. -/
def exBad2 : DCFInputs :=
  ⟨-5, 10, 4, 50, 1, 0, 0, 1/10, 10⟩

/-! ## Helper lemmas -/

/-- The `setRate` update leaves `capex` unchanged. -/
lemma setRate_capex (i : DCFInputs) (r : ℚ) : (setRate i r).capex = i.capex := rfl

/-- The `setRate` update leaves `opex` unchanged. -/
lemma setRate_opex (i : DCFInputs) (r : ℚ) : (setRate i r).opex = i.opex := rfl

/-- The `setRate` update leaves `stateRebate` unchanged. -/
lemma setRate_stateRebate (i : DCFInputs) (r : ℚ) :
    (setRate i r).stateRebate = i.stateRebate := rfl

/-- The `setRate` update leaves `discountRate` unchanged. -/
lemma setRate_discountRate (i : DCFInputs) (r : ℚ) :
    (setRate i r).discountRate = i.discountRate := rfl

/-- The `setRate` update leaves `projectLife` unchanged. -/
lemma setRate_projectLife (i : DCFInputs) (r : ℚ) :
    (setRate i r).projectLife = i.projectLife := rfl

/-- The `setRate` update sets `chargingRate`. -/
lemma setRate_chargingRate (i : DCFInputs) (r : ℚ) :
    (setRate i r).chargingRate = r := rfl

/-- Annual energy does not depend on the charging rate. -/
lemma totalAnnualKWh_setRate (i : DCFInputs) (r : ℚ) :
    Client.totalAnnualKWh (setRate i r) = Client.totalAnnualKWh i := rfl

/-- LCFS revenue does not depend on the charging rate. -/
lemma annualLCFSRevenue_setRate (i : DCFInputs) (r : ℚ) :
    Client.annualLCFSRevenue (setRate i r) = Client.annualLCFSRevenue i := rfl

/-- At a zero discount rate the discounted sum of a constant list is a
plain product. -/
lemma pv_zero_replicate (c : ℚ) :
    ∀ (n : ℕ) (j : ℕ), pvAux 0 j (List.replicate n c) = (n : ℚ) * c := by
  intro n
  induction n with
  | zero => intro j; simp [pvAux]
  | succ n ih =>
    intro j
    have h1 : ((1 : ℚ) + 0) ^ j = 1 := by norm_num
    rw [List.replicate_succ]
    simp only [pvAux, ih (j + 1), h1, div_one]
    push_cast
    ring

/-- Discounted sums are monotone in the cash flows (pointwise `≤`),
provided the discount factor base is positive. -/
lemma pvAux_le_of_forall₂ {r : ℚ} (hr : (0 : ℚ) < 1 + r) :
    ∀ {l₁ l₂ : List ℚ}, List.Forall₂ (· ≤ ·) l₁ l₂ →
      ∀ j : ℕ, pvAux r j l₁ ≤ pvAux r j l₂ := by
  intro l₁ l₂ h
  induction h with
  | nil => intro j; simp [pvAux]
  | cons h1 h2 ih =>
    intro j
    simp only [pvAux]
    have hp : (0 : ℚ) < (1 + r) ^ j := pow_pos hr j
    exact add_le_add ((div_le_div_iff_of_pos_right hp).mpr h1) (ih (j + 1))

/-- Discounted sums are strictly monotone in the cash flows (pointwise
`<`, nonempty list), provided the discount factor base is positive. -/
lemma pvAux_lt_of_forall₂ {r : ℚ} (hr : (0 : ℚ) < 1 + r) {l₁ l₂ : List ℚ}
    (h : List.Forall₂ (· < ·) l₁ l₂) (hne : l₁ ≠ []) (j : ℕ) :
    pvAux r j l₁ < pvAux r j l₂ := by
  cases h with
  | nil => exact absurd rfl hne
  | cons h1 h2 =>
    simp only [pvAux]
    have hp : (0 : ℚ) < (1 + r) ^ j := pow_pos hr j
    have hhead := (div_lt_div_iff_of_pos_right hp).mpr h1
    have htail := pvAux_le_of_forall₂ hr (h2.imp fun _ _ hab => le_of_lt hab) (j + 1)
    linarith

/-- Pointwise relations lift to `Forall₂` over two maps of one list. -/
lemma forall₂_map_map {α : Type} (R : ℚ → ℚ → Prop) (f g : α → ℚ) :
    ∀ l : List α, (∀ x ∈ l, R (f x) (g x)) →
      List.Forall₂ R (l.map f) (l.map g) := by
  intro l
  induction l with
  | nil => intro _; simp
  | cons x xs ih =>
    intro h
    simp only [List.map_cons]
    exact List.Forall₂.cons (h x (by simp)) (ih fun y hy => h y (by simp [hy]))

/-- Either the bisection stopped at a midpoint passing its `|npv| < 1`
tolerance test, or it followed the break-free trajectory to the end. -/
lemma bisect_break_or (cf : List ℚ) : ∀ (n : ℕ) (lo hi a : ℚ),
    |presentValue cf (Client.bisectAux cf n lo hi a)| < 1 ∨
      Client.bisectAux cf n lo hi a = Client.bisectNoBreakAux cf n lo hi a := by
  intro n
  induction n with
  | zero => intro lo hi a; right; rfl
  | succ n ih =>
    intro lo hi a
    by_cases hb : |presentValue cf ((lo + hi) / 2)| < 1
    · left
      simp only [Client.bisectAux, if_pos hb]
      exact hb
    · by_cases hv : 0 < presentValue cf ((lo + hi) / 2)
      · simp only [Client.bisectAux, Client.bisectNoBreakAux, if_neg hb, if_pos hv]
        exact ih _ _ _
      · simp only [Client.bisectAux, Client.bisectNoBreakAux, if_neg hb, if_neg hv]
        exact ih _ _ _

/-! ## Claim theorems -/

/-- C1: the claim states that the returned `npv` equals
`presentValue(cashFlows, discountRate)`.  The server engine
(routes.ts lines 59-70) violates this: its IRR scan overwrites the `npv`
variable with the test NPV of the best-fitting candidate rate, so at the
failing input `exA` the returned `npv` is the rounded present value at
rate 0.50 (154219), not the rounded present value at the input's
discount rate 0.08 (1492243).  This theorem evaluates the code at the
failing input. -/
theorem C1_server_npv_overwritten :
    (Server.calculateDCF exA).npv =
      jsRound (presentValue (Server.cashFlowsOf exA) (1/2)) ∧
    (Server.calculateDCF exA).npv ≠
      jsRound (presentValue (Server.cashFlowsOf exA) exA.discountRate) := by
  decide

/-- C2: the claim states
`annualEnergy = chargerPower * hoursPerDay * daysPerYear * peakUtilization * chargerCount`
with `peakUtilization` the fraction supplied in the inputs.  The client
engine divides the supplied fraction by 100 once more (part_001
line 625), contradicting its own interface comment "as decimal": at
`exA` (`peakUtilization = 1/2`, 4 chargers) the code computes 40880 kWh
where the claimed formula gives 4088000 kWh.  This theorem evaluates the
code at the failing input. -/
theorem C2_utilization_divided_by_100 :
    Client.totalAnnualKWh exA = 40880 ∧
    Client.totalAnnualKWh exA ≠
      Client.chargerPowerKW * Client.hoursPerDay * Client.daysPerYear *
        exA.peakUtilization * exA.chargerCount := by
  decide

/-- C3 counterexample: at the spec's concrete scenario (4 chargers,
capExPerCharger 100000, stateRebate 0) the client engine's year-0 cash
flow is -100000, not the claimed
`-(capExPerCharger * chargerCount - stateRebate) = -400000`:
part_001 line 635 computes `-(capex - stateRebate)` without the
`* chargerCount` factor. -/
theorem C3_client_year0_counterexample :
    (Client.calculateDCF exScenario).cashFlows.head? = some (-100000) ∧
    ((-100000 : ℚ)) ≠ -(exScenario.capex * exScenario.chargerCount - exScenario.stateRebate) := by
  decide

/-- C3 amended: the server engine's year-0 flow is exactly
`-(capex * chargerCount - stateRebate)` (hence -400000 in the concrete
scenario), while the client engine's is `-(capex - stateRebate)`,
i.e. it treats `capex` as a total already summed over chargers. -/
theorem C3_year0_formulas :
    (∀ i : DCFInputs, (Server.calculateDCF i).cashFlows.head? =
      some (-(i.capex * i.chargerCount - i.stateRebate))) ∧
    (∀ i : DCFInputs, (Client.calculateDCF i).cashFlows.head? =
      some (jsRound (-(i.capex - i.stateRebate)))) ∧
    (Server.calculateDCF exScenario).cashFlows.head? = some (-400000) := by
  refine ⟨fun i => ?_, fun i => ?_, by decide⟩
  · simp [Server.calculateDCF, Server.cashFlowsOf]
  · simp [Client.calculateDCF, Client.cashFlowsOf]

set_option maxRecDepth 100000 in
/-- C4 counterexample: on the entirely non-negative series
`[0, 100, 100, 100]` the claim demands an `Undetermined` signal and no
numeric rate, but the client engine's bisection returns the numeric
search midpoint `10 - 10.99/2^100` (the loop pushes the lower bound
toward the upper clamp 10 for all 100 iterations, since the present
value is positive at every candidate rate). -/
theorem C4_bisection_returns_midpoint :
    Client.bisectIRR [0, 100, 100, 100] = 10 - 1099 / (100 * 2 ^ 100) := by
  decide

set_option maxRecDepth 100000 in
/-- C4 amended: a no-sign-change series yields a numeric rate, not an
`Undetermined` signal: the client bisection returns a midpoint just
below the upper clamp bound 10, and the server scan returns the
in-range candidate rate 0.50 minimizing `|presentValue|`.  Neither
implementation has any non-numeric result channel. -/
theorem C4_no_sign_change_numeric :
    (9 : ℚ) < Client.bisectIRR [0, 100, 100, 100] ∧
    Client.bisectIRR [0, 100, 100, 100] < 10 ∧
    (Server.scanIRR [0, 100, 100, 100] (1/10)).1 = 1/2 := by
  decide

/-- C5 counterexample: at `exA` (discount rate 0.08) the server engine's
`lcoc` field is 17/250 = 0.068, while the claimed quotient
`totalPresentCost / totalPresentEnergy` (initial outlay plus discounted
yearly OpEx over discounted yearly energy) is about 0.0954 — the code's
LCOC (routes.ts lines 72-75) performs no discounting at all, and the
two disagree whether or not the claimed value is rounded to the 3
decimals of the output boundary. -/
theorem C5_server_lcoc_not_discounted :
    (Server.calculateDCF exA).lcoc ≠
      (exA.capex * exA.chargerCount - exA.stateRebate +
        pvAux exA.discountRate 1 (List.replicate exA.projectLife exA.opex)) /
      pvAux exA.discountRate 1 (List.replicate exA.projectLife (Server.annualKWhOf exA)) ∧
    (Server.calculateDCF exA).lcoc ≠
      jsRound ((exA.capex * exA.chargerCount - exA.stateRebate +
        pvAux exA.discountRate 1 (List.replicate exA.projectLife exA.opex)) /
      pvAux exA.discountRate 1 (List.replicate exA.projectLife (Server.annualKWhOf exA))
        * 1000) / 1000 := by
  decide

/-- C5 amended: the server LCOC coincides with the claimed discounted
quotient only in the degenerate case `discountRate = 0` (with zero
rebate) — it is the undiscounted ratio; and the client engine has no
zero-energy guard: at zero utilization its LCOC denominator is 0 while
the numerator is positive, so the source performs the division by zero
(JS `Infinity`) instead of returning an undefined marker. -/
theorem C5_lcoc_amended :
    (∀ i : DCFInputs, i.stateRebate = 0 →
      (i.capex * i.chargerCount - i.stateRebate +
        pvAux 0 1 (List.replicate i.projectLife i.opex)) /
      pvAux 0 1 (List.replicate i.projectLife (Server.annualKWhOf i)) =
        Server.lcocRaw i) ∧
    (Client.lcocDen exZeroU = 0 ∧ 0 < Client.lcocNum exZeroU) := by
  constructor
  · intro i h
    rw [pv_zero_replicate, pv_zero_replicate, h]
    simp only [Server.lcocRaw]
    ring
  · exact ⟨by decide, by decide⟩

/-- C5 witness: the degenerate-case equality applied at `exA`. -/
theorem C5_lcoc_amended_witness :
    (exA.capex * exA.chargerCount - exA.stateRebate +
      pvAux 0 1 (List.replicate exA.projectLife exA.opex)) /
    pvAux 0 1 (List.replicate exA.projectLife (Server.annualKWhOf exA)) =
      Server.lcocRaw exA :=
  C5_lcoc_amended.1 exA rfl

/-- C6 counterexample: the claim demands a fail-fast `InvalidInputError`
with no partial computation and no `DCFResult`.  The repository has no
such error: `validateDCFInputs` merely returns a list of strings (and is
not invoked by either `calculateDCF`), and at the out-of-domain input
`exBad` (99 chargers, utilization 500) both engines run to completion
and produce a full 11-entry cash-flow series. -/
theorem C6_no_fail_fast :
    Client.validateDCFInputs exBad ≠ [] ∧
    (Client.calculateDCF exBad).cashFlows.length = 11 ∧
    (Server.calculateDCF exBad).cashFlows.length = 11 := by
  decide

/-- C6 amended: for every input violating one of the domains the
validator actually checks (non-positive capex, non-positive opex,
charger count outside [4,8], utilization outside (0,100], non-positive
charging rate — it checks neither the discount rate nor the project
life), `validateDCFInputs` returns a non-empty list of descriptive
error strings; an in-domain input yields the empty list.  No exception
is raised and the engines do not consult this validator. -/
theorem C6_validator_amended :
    (∀ i : DCFInputs,
      i.capex ≤ 0 ∨ i.opex ≤ 0 ∨ i.chargerCount < 4 ∨ 8 < i.chargerCount ∨
        i.peakUtilization ≤ 0 ∨ 100 < i.peakUtilization ∨ i.chargingRate ≤ 0 →
      Client.validateDCFInputs i ≠ []) ∧
    Client.validateDCFInputs exA = [] := by
  constructor
  · intro i h
    rcases h with h | h | h | h | h | h | h
    all_goals simp [Client.validateDCFInputs, h]
  · decide

/-- C6 witness: the validator rejects the negative-capex input `exBad2`. -/
theorem C6_validator_amended_witness :
    Client.validateDCFInputs exBad2 ≠ [] :=
  C6_validator_amended.1 exBad2 (by decide)

set_option maxRecDepth 100000 in
/-- C7 counterexample: at `exC7` the client engine determines a numeric
IRR, yet the present value of the returned cash flows at that rate is
about 0.2555 — far above the claimed `1e-3` tolerance (the bisection's
own break tolerance is `|npv| < 1`, one monetary unit). -/
theorem C7_irr_pv_exceeds_tolerance :
    1/1000 <
      |presentValue ((Client.calculateDCF exC7).cashFlows)
        ((Client.calculateDCF exC7).irr)| := by
  decide

set_option maxRecDepth 100000 in
/-- C7 amended: the root quality actually guaranteed is the loop's own
tolerance: for every series, either the bisection stopped at a midpoint
with `|presentValue| < 1` (one monetary unit, not `1e-3`), or it never
broke and returned the 100th midpoint of the break-free trajectory; at
`exC7` the break did fire and `|presentValue|` is below 1. -/
theorem C7_break_tolerance :
    (∀ cf : List ℚ,
      |presentValue cf (Client.bisectIRR cf)| < 1 ∨
        Client.bisectIRR cf = Client.bisectNoBreak cf) ∧
    |presentValue (Client.cashFlowsOf exC7) ((Client.calculateDCF exC7).irr)| < 1 := by
  constructor
  · intro cf
    exact bisect_break_or cf 100 _ _ _
  · decide

/-- C8: both engines return a cash-flow series of length exactly
`projectLife + 1`: one initial-investment entry followed by one entry
per operating year. -/
theorem C8_series_length (i : DCFInputs) :
    (Server.calculateDCF i).cashFlows.length = i.projectLife + 1 ∧
    (Client.calculateDCF i).cashFlows.length = i.projectLife + 1 := by
  constructor
  · simp [Server.calculateDCF, Server.cashFlowsOf]
  · simp [Client.calculateDCF, Client.cashFlowsOf]

/-- C9 counterexample: the claim demands a strictly larger `npv` in the
engine's result for a strictly larger `chargingRate`.  The client
engine rounds the NPV at the output boundary (part_001 line 703), so
for the rates 0.4 and 0.4 + 1e-9 (all other fields of `exA` equal) the
returned `npv` fields are both -94946: not strictly larger. -/
theorem C9_rounded_npv_not_strict :
    (2/5 : ℚ) < 2/5 + 1/1000000000 ∧
    (Client.calculateDCF (setRate exA (2/5))).npv =
      (Client.calculateDCF (setRate exA (2/5 + 1/1000000000))).npv := by
  decide

/-- C9 amended: the strict monotonicity holds for the internal
(unrounded) NPV: with a positive charger count, positive utilization,
a discount rate above -1 and at least one operating year, a strictly
larger charging rate yields a strictly larger raw NPV in the client
engine (the returned rounded `npv` is therefore only weakly monotone). -/
theorem C9_raw_npv_strictMono (i : DCFInputs) (r₁ r₂ : ℚ)
    (hc : 0 < i.chargerCount) (hu : 0 < i.peakUtilization)
    (hd : -1 < i.discountRate) (hl : i.projectLife ≠ 0) (hr : r₁ < r₂) :
    Client.npvRaw (setRate i r₁) < Client.npvRaw (setRate i r₂) := by
  have hd1 : (0 : ℚ) < 1 + i.discountRate := by linarith
  have hE : 0 < Client.totalAnnualKWh i := by
    have h1 : (0 : ℚ) < i.peakUtilization * i.chargerCount := mul_pos hu hc
    have h2 : Client.totalAnnualKWh i =
        20440 * (i.peakUtilization * i.chargerCount) := by
      simp only [Client.totalAnnualKWh, Client.annualKWhPerCharger,
        Client.chargerPowerKW, Client.hoursPerDay, Client.daysPerYear]
      ring
    rw [h2]
    exact mul_pos (by norm_num) h1
  have hflow : ∀ k ∈ List.range i.projectLife,
      Client.yearFlow (setRate i r₁) (k + 1) <
        Client.yearFlow (setRate i r₂) (k + 1) := by
    intro k _
    have hf : 0 < Client.utilizationFactor (k + 1) := by
      have hk : (0 : ℚ) ≤ (k : ℚ) := Nat.cast_nonneg k
      have harg : (0 : ℚ) < Client.utilizationRampUp +
          (1 - Client.utilizationRampUp) * (((k + 1 : ℕ) : ℚ) - 1) / 2 := by
        simp only [Client.utilizationRampUp]
        push_cast
        linarith
      exact lt_min one_pos harg
    have hEf : 0 < Client.totalAnnualKWh i * Client.utilizationFactor (k + 1) :=
      mul_pos hE hf
    have hmul := mul_lt_mul_of_pos_left hr hEf
    simp only [Client.yearFlow, totalAnnualKWh_setRate, annualLCFSRevenue_setRate,
      setRate_opex, setRate_chargingRate]
    linarith
  have h2 : List.Forall₂ (· < ·)
      ((List.range i.projectLife).map (fun k => Client.yearFlow (setRate i r₁) (k + 1)))
      ((List.range i.projectLife).map (fun k => Client.yearFlow (setRate i r₂) (k + 1))) :=
    forall₂_map_map _ _ _ _ hflow
  have hne : ((List.range i.projectLife).map
      (fun k => Client.yearFlow (setRate i r₁) (k + 1))) ≠ [] := by
    simp [hl]
  have h3 := pvAux_lt_of_forall₂ hd1 h2 hne 1
  simp only [Client.npvRaw, presentValue, Client.cashFlowsOf, pvAux,
    setRate_capex, setRate_stateRebate, setRate_discountRate, setRate_projectLife,
    pow_zero, div_one, Nat.zero_add]
  linarith

/-- C9 witness: the strict raw-NPV monotonicity at `exA` between the
rates 0.4 and 0.5. -/
theorem C9_raw_npv_strictMono_witness :
    Client.npvRaw (setRate exA (2/5)) < Client.npvRaw (setRate exA (1/2)) :=
  C9_raw_npv_strictMono exA (2/5) (1/2) (by decide) (by decide) (by decide)
    (by decide) (by decide)

/-- C10 counterexample: fed the same record (the spec's concrete
scenario), the server and client `calculateDCF` return different
cash-flow series, so the two duplicated engines are not behaviorally
equivalent. -/
theorem C10_engines_differ :
    (Server.calculateDCF exScenario).cashFlows ≠
      (Client.calculateDCF exScenario).cashFlows := by
  decide

/-- C10 amended: the two engines are behaviorally different: at the
spec's concrete scenario they disagree on the NPV and already on the
year-0 outlay (-400000 for the server's `capex * chargerCount`
convention versus -100000 for the client's total-capex convention);
they also differ in energy model, ramp-up, electricity cost, IRR
method, and LCOC discounting. -/
theorem C10_engines_divergence_detail :
    (Server.calculateDCF exScenario).npv ≠ (Client.calculateDCF exScenario).npv ∧
    (Server.calculateDCF exScenario).cashFlows.head? = some (-400000) ∧
    (Client.calculateDCF exScenario).cashFlows.head? = some (-100000) := by
  decide

end EVCharge
